import Mathlib

/-
Shallow embedding of the GNSS log viewer (src/main.py).

Numbers: Python floats are modelled as exact rationals (ℚ).  Python's
float() can also produce the non-finite values nan/inf; every place the
program consumes a parsed float immediately range-checks it
(0 <= v <= 9000 etc.), and all such comparisons are False on nan/inf in
Python, so the line is rejected exactly as if the parse had failed.  The
model therefore lets pyFloat return none on the nan/inf spellings: the
observable behaviour of every embedded function is unchanged.

Files: the reader opens the file with errors-ignoring decoding; the model
takes the already-decoded list of raw lines as input.  The error branches
of the reader (FileNotFoundError / generic exception) are modelled by the
FileReadOutcome type together with the console message each branch prints.
-/

namespace UbxView

/-- ASCII characters for which Python str.isspace is True:
codes 9-13 (tab..carriage return), 28-31 (file..unit separator), 32. -/
def pyIsSpace (c : Char) : Bool :=
  (9 ≤ c.toNat && c.toNat ≤ 13) || (28 ≤ c.toNat && c.toNat ≤ 32)

/-- ASCII characters for which Python str.isprintable is True: codes 32-126. -/
def pyIsPrintableAscii (c : Char) : Bool :=
  32 ≤ c.toNat && c.toNat ≤ 126

/-- Whether the first list is an initial segment of the second
(Python str.startswith on the underlying characters). -/
def isHeadOf : List Char → List Char → Bool
  | [], _ => true
  | _ :: _, [] => false
  | a :: as, b :: bs => a == b && isHeadOf as bs

/-- Whether the first list is a final segment of the second
(Python str.endswith on the underlying characters). -/
def isTailOf (t s : List Char) : Bool :=
  isHeadOf t.reverse s.reverse

/-- Remove leading Python-whitespace characters. -/
def dropLeadingWs : List Char → List Char
  | [] => []
  | c :: rest => if pyIsSpace c then dropLeadingWs rest else c :: rest

/-- Python str.strip(): remove whitespace from both ends. -/
def pyStrip (s : String) : String :=
  String.mk ((dropLeadingWs ((dropLeadingWs s.data).reverse)).reverse)

/-- Worker for pySplitComma. -/
def splitCommaAux : List Char → List Char → List String
  | [], acc => [String.mk acc.reverse]
  | c :: rest, acc =>
    if c == ',' then String.mk acc.reverse :: splitCommaAux rest []
    else splitCommaAux rest (c :: acc)

/-- Python line.split on the comma delimiter. -/
def pySplitComma (line : String) : List String :=
  splitCommaAux line.data []

/-- The sentence tag the program filters on. -/
def gnggaTag : String := "$GNGGA"

/-- The sentence-type tail checked by the parser on field zero. -/
def ggaTail : String := "GGA"

/-- ASCII decimal digit test. -/
def isDigit (c : Char) : Bool := 48 ≤ c.toNat && c.toNat ≤ 57

/-- Python numeric literals allow single underscores strictly between two
digits.  The Bool argument records whether the previous character was a
digit. -/
def usOkAux : Bool → List Char → Bool
  | _, [] => true
  | prevDigit, c :: rest =>
    if c == '_' then
      prevDigit && (match rest with | d :: _ => isDigit d | [] => false)
        && usOkAux false rest
    else usOkAux (isDigit c) rest

/-- Numeric value of a list of decimal digit characters. -/
def digitsFold (cs : List Char) : ℕ :=
  cs.foldl (fun n c => 10 * n + (c.toNat - 48)) 0

/-- Split a character list at the first character satisfying p:
returns the part before it and, when found, the part after it. -/
def splitFirst (p : Char → Bool) : List Char → List Char × Option (List Char)
  | [] => ([], none)
  | c :: rest =>
    if p c then ([], some rest)
    else
      let q := splitFirst p rest
      (c :: q.1, q.2)

/-- Mantissa of a Python float literal: digits with an optional single
decimal point, at least one digit in total. -/
def parseMantissa (cs : List Char) : Option ℚ :=
  match splitFirst (fun c => c == '.') cs with
  | (ip, none) =>
    if !ip.isEmpty && ip.all isDigit then some ((digitsFold ip : ℕ) : ℚ)
    else none
  | (ip, some fp) =>
    if (!ip.isEmpty || !fp.isEmpty) && ip.all isDigit && fp.all isDigit then
      some (((digitsFold (ip ++ fp) : ℕ) : ℚ) / (10 : ℚ) ^ fp.length)
    else none

/-- Exponent part of a Python float literal: optional sign, then digits. -/
def parseExpDigits : List Char → Option ℤ
  | '+' :: ds =>
    if !ds.isEmpty && ds.all isDigit then some ((digitsFold ds : ℕ) : ℤ) else none
  | '-' :: ds =>
    if !ds.isEmpty && ds.all isDigit then some (-((digitsFold ds : ℕ) : ℤ)) else none
  | ds =>
    if !ds.isEmpty && ds.all isDigit then some ((digitsFold ds : ℕ) : ℤ) else none

/-- Scale a mantissa by a signed power of ten. -/
def applyExp (m : ℚ) (e : ℤ) : ℚ :=
  if 0 ≤ e then m * (10 : ℚ) ^ e.toNat else m / (10 : ℚ) ^ (-e).toNat

/-- Unsigned Python float literal: mantissa with optional exponent part. -/
def parseUnsignedFloat (cs : List Char) : Option ℚ :=
  match splitFirst (fun c => c == 'e' || c == 'E') cs with
  | (mant, none) => parseMantissa mant
  | (mant, some ecs) =>
    match parseMantissa mant, parseExpDigits ecs with
    | some m, some e => some (applyExp m e)
    | _, _ => none

/-- Python float(s) on finite decimal literals: surrounding whitespace is
stripped, an optional sign precedes the literal, single underscores may
stand between digits.  The nan/inf spellings are modelled as none (see the
header comment: every consumer range-checks the value, which rejects the
line just the same). -/
def pyFloat (s : String) : Option ℚ :=
  let cs := (pyStrip s).data
  if !usOkAux false cs then none
  else
    match cs.filter (fun c => !(c == '_')) with
    | '+' :: rest => parseUnsignedFloat rest
    | '-' :: rest => (parseUnsignedFloat rest).map Neg.neg
    | rest => parseUnsignedFloat rest

/-- Python int() on a rational: truncation toward zero. -/
def pyInt (q : ℚ) : ℤ := if 0 ≤ q then ⌊q⌋ else -⌊-q⌋

/-- The parsed fix tuple (utc_time, latitude, longitude, altitude)
returned by parse_gngga. -/
structure Fix where
  utc_time : String
  latitude : ℚ
  longitude : ℚ
  altitude : ℚ
deriving DecidableEq, Repr

/-- The inner convert helper of parse_gngga: degrees-minutes raw magnitude
to signed decimal degrees, sign flipped for the S and W hemispheres. -/
def convert (coord_val : ℚ) (direction : String) : ℚ :=
  let deg : ℤ := pyInt (coord_val / 100)
  let minutes : ℚ := coord_val - (deg : ℚ) * 100
  let decimal : ℚ := (deg : ℚ) + minutes / 60
  if direction = "S" ∨ direction = "W" then -decimal else decimal

/-- is_valid_gngga_line from src/main.py: structural and raw-value
plausibility gate.  The try/except around the float conversions is
modelled by the match: any parse failure gives false. -/
def is_valid_gngga_line (line : String) : Bool :=
  if !isHeadOf gnggaTag.data line.data then false
  else
    let parts := pySplitComma line
    if parts.length < 15 then false
    else
      let lat_raw := parts.getD 2 default
      let lat_dir := parts.getD 3 default
      let lon_raw := parts.getD 4 default
      let lon_dir := parts.getD 5 default
      let alt_str := parts.getD 9 default
      if lat_raw.isEmpty || lat_dir.isEmpty || lon_raw.isEmpty ||
          lon_dir.isEmpty || alt_str.isEmpty then false
      else
        match pyFloat lat_raw, pyFloat lon_raw, pyFloat alt_str with
        | some lat_val, some lon_val, some alt_val =>
          if lat_val = 0 ∨ lon_val = 0 then false
          else if ¬(0 ≤ lat_val ∧ lat_val ≤ 9000) then false
          else if ¬(0 ≤ lon_val ∧ lon_val ≤ 18000) then false
          else if ¬((-1000 : ℚ) ≤ alt_val ∧ alt_val ≤ 10000) then false
          else true
        | _, _, _ => false

/-- parse_gngga from src/main.py.  The try/except around the numeric
conversions is modelled by the match on the three pyFloat results: the
first failure makes the whole parse none, exactly as the caught
ValueError does. -/
def parse_gngga (line : String) : Option Fix :=
  if !is_valid_gngga_line line then none
  else
    let parts := pySplitComma line
    if parts.length < 10 then none
    else if !isTailOf ggaTail.data (parts.getD 0 default).data then none
    else
      let lat_raw := parts.getD 2 default
      let lat_dir := parts.getD 3 default
      let lon_raw := parts.getD 4 default
      let lon_dir := parts.getD 5 default
      let alt_str := parts.getD 9 default
      let utc_time := parts.getD 1 default
      if lat_raw.isEmpty || lat_dir.isEmpty || lon_raw.isEmpty ||
          lon_dir.isEmpty || alt_str.isEmpty then none
      else
        match pyFloat lat_raw, pyFloat lon_raw, pyFloat alt_str with
        | some lat_val, some lon_val, some alt_val =>
          let latitude := convert lat_val lat_dir
          let longitude := convert lon_val lon_dir
          let altitude := alt_val
          if ¬((-90 : ℚ) ≤ latitude ∧ latitude ≤ 90) then none
          else if ¬((-180 : ℚ) ≤ longitude ∧ longitude ≤ 180) then none
          else if ¬((-1000 : ℚ) ≤ altitude ∧ altitude ≤ 10000) then none
          else some ⟨utc_time, latitude, longitude, altitude⟩
        | _, _, _ => none

/-- The per-line keep condition of read_latest_gnss_data, applied to the
already-stripped line. -/
def lineKeep (line : String) : Bool :=
  isHeadOf gnggaTag.data line.data && decide (50 < line.length) &&
    line.data.all (fun c =>
      decide (c.toNat < 128) && (pyIsPrintableAscii c || pyIsSpace c))

/-- The clean-and-filter loop of read_latest_gnss_data over the decoded
raw lines: strip each line, keep it when lineKeep holds, in file order. -/
def read_latest_gnss_data : List String → List String
  | [] => []
  | raw :: rest =>
    let line := pyStrip raw
    if lineKeep line then line :: read_latest_gnss_data rest
    else read_latest_gnss_data rest

/-- Outcome of opening and decoding the log file. -/
inductive FileReadOutcome where
  | notFound
  | ioError (msg : String)
  | ok (raw_lines : List String)

/-- The console message printed by each error branch of
read_latest_gnss_data. -/
inductive ConsoleMsg where
  | fileNotFound
  | readError
deriving DecidableEq, Repr

/-- read_latest_gnss_data including its exception handlers: a missing file
and any other failure are both caught, print a message and yield the empty
list; a readable file yields its filtered lines with no message. -/
def read_latest_gnss_data_file : FileReadOutcome → List String × Option ConsoleMsg
  | FileReadOutcome.notFound => ([], some ConsoleMsg.fileNotFound)
  | FileReadOutcome.ioError _ => ([], some ConsoleMsg.readError)
  | FileReadOutcome.ok raw_lines => (read_latest_gnss_data raw_lines, none)

/-- The backward loop of get_last_valid_position, given the candidate
lines already reversed (most recent first). -/
def lastScan : List String → Option Fix
  | [] => none
  | line :: rest =>
    if is_valid_gngga_line line then
      match parse_gngga line with
      | some parsed => some parsed
      | none => lastScan rest
    else lastScan rest

/-- get_last_valid_position from src/main.py, on the decoded raw lines of
the file. -/
def get_last_valid_position (raw_lines : List String) : Option Fix :=
  let lines := read_latest_gnss_data raw_lines
  if lines.isEmpty then none
  else lastScan lines.reverse

/-- The batch parsing loop of src/main.py: accumulate parsed positions in
order and count skipped lines. -/
def parseAllLoop : List String → List Fix → ℕ → List Fix × ℕ
  | [], positions, skipped => (positions, skipped)
  | line :: rest, positions, skipped =>
    match parse_gngga line with
    | some parsed => parseAllLoop rest (positions ++ [parsed]) skipped
    | none => parseAllLoop rest positions (skipped + 1)

/-- Batch mode: read the candidate lines, then run the parsing loop. -/
def parseAll (raw_lines : List String) : List Fix × ℕ :=
  parseAllLoop (read_latest_gnss_data raw_lines) [] 0

/-- A point of the live trajectory window: east and north displacement and
altitude offset in meters. -/
structure PlanarOffset where
  east : ℚ
  north : ℚ
  up : ℚ
deriving DecidableEq, Repr

/-- The window append of live_gnss_playback: append the new point, then
keep only the last 1000 points when the length exceeds 1000. -/
def livePush (w : List PlanarOffset) (p : PlanarOffset) : List PlanarOffset :=
  if 1000 < (w ++ [p]).length then
    (w ++ [p]).drop ((w ++ [p]).length - 1000)
  else w ++ [p]

/-- One live-mode acceptance step: skip the point when any displacement is
unreasonable, otherwise append it to the window. -/
def liveStep (w : List PlanarOffset) (p : PlanarOffset) : List PlanarOffset :=
  if 1000 < |p.east| ∨ 1000 < |p.north| ∨ 100 < |p.up| then w
  else livePush w p

/-- Coordinate conversion as the spec words it: integer degrees is the
floor of rawMagnitude / 100, minutes the remainder, sign flipped for the
S and W hemispheres. -/
def specConvert (raw : ℚ) (dir : String) : ℚ :=
  let deg : ℤ := ⌊raw / 100⌋
  let minutes : ℚ := raw - (deg : ℚ) * 100
  let dd : ℚ := (deg : ℚ) + minutes / 60
  if dir = "S" ∨ dir = "W" then -dd else dd

/-- The worked example line of the spec. -/
def exampleLine : String :=
  "$GNGGA,123456.00,3911.766,N,07715.408,W,1,08,0.9,130.0,M,46.9,M,,*47"

/-- The fix the spec expects for exampleLine. -/
def exampleFix : Fix := ⟨"123456.00", 39.1961, -77.2568, 130⟩

/-- A line the Validator accepts (raw latitude 8999 lies in [0, 9000])
whose converted latitude 89 + 99/60 exceeds 90, so the Parser rejects it. -/
def badLastLine : String :=
  "$GNGGA,123456.00,8999.000,N,07715.408,W,1,08,0.9,130.0,M,46.9,M,,*47"

/-- A line whose raw latitude magnitude parses as exactly zero. -/
def zeroLatLine : String :=
  "$GNGGA,123456.00,0000.000,N,07715.408,W,1,08,0.9,130.0,M,46.9,M,,*47"

/-- A line whose altitude field is not a number. -/
def badAltLine : String :=
  "$GNGGA,123456.00,3911.766,N,07715.408,W,1,08,0.9,abcde,M,46.9,M,,*47"

/-- The origin offset, used as a concrete window point. -/
def originOffset : PlanarOffset := ⟨0, 0, 0⟩

end UbxView

namespace UbxView

/-- Helper: the clean-and-filter loop of the reader is an order-preserving
filter of the stripped lines. -/
theorem read_eq_filter (raw_lines : List String) :
    read_latest_gnss_data raw_lines = (raw_lines.map pyStrip).filter lineKeep := by
  induction raw_lines with
  | nil => rfl
  | cons raw rest ih =>
    by_cases h : lineKeep (pyStrip raw) = true <;>
      simp [read_latest_gnss_data, List.filter_cons, h, ih]

/-- Helper: the keep condition of the reader, spelled out. -/
theorem lineKeep_iff (l : String) :
    lineKeep l = true ↔
      (isHeadOf gnggaTag.data l.data = true ∧ 50 < l.length ∧
        ∀ c ∈ l.data, c.toNat < 128 ∧
          (pyIsPrintableAscii c = true ∨ pyIsSpace c = true)) := by
  simp [lineKeep, List.all_eq_true, and_assoc]

/-- Helper: closed form of the batch parsing loop. -/
theorem parseAllLoop_eq (ls : List String) :
    ∀ (positions : List Fix) (skipped : ℕ),
      parseAllLoop ls positions skipped =
        (positions ++ ls.filterMap parse_gngga,
          skipped + (ls.length - (ls.filterMap parse_gngga).length)) := by
  induction ls with
  | nil => intro positions skipped; simp [parseAllLoop]
  | cons line rest ih =>
    intro positions skipped
    have hle : (rest.filterMap parse_gngga).length ≤ rest.length :=
      List.length_filterMap_le _ _
    cases h : parse_gngga line with
    | some parsed =>
      simp [parseAllLoop, h, ih, List.filterMap_cons]
    | none =>
      simp [parseAllLoop, h, ih, List.filterMap_cons]
      omega

/-- Helper: the parser short-circuits to none on any line the validator
rejects. -/
theorem parse_none_of_invalid (line : String)
    (h : is_valid_gngga_line line = false) : parse_gngga line = none := by
  simp [parse_gngga, h]

/-- Helper: on a validator-accepted line the raw coordinate magnitudes lie
in the raw-format ranges checked by the validator. -/
theorem valid_raw_facts (line : String) (hv : is_valid_gngga_line line = true) :
    ∀ lv lov : ℚ,
      pyFloat ((pySplitComma line).getD 2 default) = some lv →
      pyFloat ((pySplitComma line).getD 4 default) = some lov →
      (0 ≤ lv ∧ lv ≤ 9000) ∧ (0 ≤ lov ∧ lov ≤ 18000) := by
  intro lv lov h2 h4
  simp only [is_valid_gngga_line] at hv
  split at hv
  · simp at hv
  · split at hv
    · simp at hv
    · split at hv
      · simp at hv
      · split at hv
        next lat_val lon_val alt_val heq2 heq4 heq9 =>
          rw [h2] at heq2
          rw [h4] at heq4
          have hlv : lv = lat_val := by injection heq2
          have hlov : lov = lon_val := by injection heq4
          subst hlv
          subst hlov
          split at hv
          · simp at hv
          · split at hv
            · simp at hv
            · next hz hlat =>
              split at hv
              · simp at hv
              · next hlon =>
                push_neg at hlat hlon
                exact ⟨hlat, hlon⟩
        next => simp at hv

/-- Helper: on a nonnegative raw magnitude the truncating conversion of the
code agrees with the floor-based formula of the spec. -/
theorem convert_eq_specConvert (raw : ℚ) (dir : String) (h : 0 ≤ raw) :
    convert raw dir = specConvert raw dir := by
  have h100 : 0 ≤ raw / 100 := by positivity
  simp only [convert, specConvert, pyInt, if_pos h100]

/-- Helper: the backward scan returns the first successful parse of the
scanned list, continuing past lines that fail to parse. -/
theorem lastScan_eq (ls : List String) :
    lastScan ls = List.findSome? parse_gngga ls := by
  induction ls with
  | nil => rfl
  | cons line rest ih =>
    cases hv : is_valid_gngga_line line with
    | true =>
      cases hp : parse_gngga line with
      | some parsed => simp [lastScan, hv, hp, List.findSome?_cons]
      | none => simp [lastScan, hv, hp, List.findSome?_cons, ih]
    | false =>
      have hp := parse_none_of_invalid line hv
      simp [lastScan, hv, hp, List.findSome?_cons, ih]

/-- C1: whenever parse_gngga returns a Fix, its latitude lies in [-90, 90],
its longitude in [-180, 180] and its altitude in [-1000, 10000]; together
with the none cases this covers every validator-valid line, so an
out-of-bounds Fix is never produced. -/
theorem parseC1 (line : String) (f : Fix) (h : parse_gngga line = some f) :
    ((-90 : ℚ) ≤ f.latitude ∧ f.latitude ≤ 90) ∧
    ((-180 : ℚ) ≤ f.longitude ∧ f.longitude ≤ 180) ∧
    ((-1000 : ℚ) ≤ f.altitude ∧ f.altitude ≤ 10000) := by
  simp only [parse_gngga] at h
  split at h
  · simp at h
  · split at h
    · simp at h
    · split at h
      · simp at h
      · split at h
        · simp at h
        · split at h
          next lat_val lon_val alt_val heq2 heq4 heq9 =>
            split at h
            · simp at h
            · next hlat =>
              split at h
              · simp at h
              · next hlon =>
                split at h
                · simp at h
                · next halt =>
                  push_neg at hlat hlon halt
                  rw [Option.some_inj] at h
                  subst h
                  exact ⟨hlat, hlon, halt⟩
          next => simp at h

/-- C1 witness: the example line parses and the resulting components are
inside the required bounds. -/
theorem parseC1_witness :
    parse_gngga exampleLine = some exampleFix ∧
    ((-90 : ℚ) ≤ exampleFix.latitude ∧ exampleFix.latitude ≤ 90) ∧
    ((-180 : ℚ) ≤ exampleFix.longitude ∧ exampleFix.longitude ≤ 180) ∧
    ((-1000 : ℚ) ≤ exampleFix.altitude ∧ exampleFix.altitude ≤ 10000) := by
  have h : parse_gngga exampleLine = some exampleFix := by with_unfolding_all rfl
  exact ⟨h, parseC1 exampleLine exampleFix h⟩

/-- C2 counterexample: a file whose most recent line is Validator-valid
(raw latitude 8999 passes the raw-format bounds) but fails numeric
parsing (converted latitude 90.65 exceeds 90), while an earlier line is
fully valid.  get_last_valid_position continues the backward scan past the
failing line and returns the earlier fix, not none, refuting the claim
that the scan stops at the first Validator-valid line. -/
theorem latestValidC2counter :
    is_valid_gngga_line badLastLine = true ∧
    parse_gngga badLastLine = none ∧
    parse_gngga exampleLine = some exampleFix ∧
    get_last_valid_position [exampleLine, badLastLine] = some exampleFix := by
  refine ⟨?_, ?_, ?_, ?_⟩ <;> with_unfolding_all rfl

/-- C2 (amended): the backward scan of get_last_valid_position returns the
most recent candidate line whose parse succeeds, scanning past any line
that fails parsing (including Validator-valid lines whose numeric
conversion fails); it returns none exactly when no candidate line parses. -/
theorem latestValidC2 (raw_lines : List String) :
    get_last_valid_position raw_lines =
      List.findSome? parse_gngga (read_latest_gnss_data raw_lines).reverse := by
  simp only [get_last_valid_position]
  split
  · next h =>
    rw [List.isEmpty_iff] at h
    simp [h]
  · exact lastScan_eq _

/-- C3: on every validator-valid line the parser computes each coordinate
by the degrees-minutes formula with floor-based integer degrees and the
sign flipped for the S and W hemispheres, and the worked example line
parses to latitude 39.1961, longitude -77.2568, altitude 130. -/
theorem convertC3 :
    (∀ (line : String) (f : Fix) (rawLat rawLon : ℚ),
      is_valid_gngga_line line = true →
      pyFloat ((pySplitComma line).getD 2 default) = some rawLat →
      pyFloat ((pySplitComma line).getD 4 default) = some rawLon →
      parse_gngga line = some f →
      f.latitude = specConvert rawLat ((pySplitComma line).getD 3 default) ∧
      f.longitude = specConvert rawLon ((pySplitComma line).getD 5 default)) ∧
    parse_gngga exampleLine = some exampleFix := by
  constructor
  · intro line f rawLat rawLon hv h2 h4 hp
    obtain ⟨⟨hlat0, _⟩, ⟨hlon0, _⟩⟩ := valid_raw_facts line hv rawLat rawLon h2 h4
    simp only [parse_gngga] at hp
    split at hp
    · simp at hp
    · split at hp
      · simp at hp
      · split at hp
        · simp at hp
        · split at hp
          · simp at hp
          · split at hp
            next lat_val lon_val alt_val heq2 heq4 heq9 =>
              rw [h2] at heq2
              rw [h4] at heq4
              have hlv : rawLat = lat_val := by injection heq2
              have hlov : rawLon = lon_val := by injection heq4
              subst hlv
              subst hlov
              split at hp
              · simp at hp
              · split at hp
                · simp at hp
                · split at hp
                  · simp at hp
                  · rw [Option.some_inj] at hp
                    subst hp
                    exact ⟨convert_eq_specConvert _ _ hlat0,
                           convert_eq_specConvert _ _ hlon0⟩
            next => simp at hp
  · with_unfolding_all rfl

/-- C3 witness: the formula instantiated on the example line, with raw
latitude 3911.766 and raw longitude 7715.408. -/
theorem convertC3_witness :
    is_valid_gngga_line exampleLine = true ∧
    pyFloat ((pySplitComma exampleLine).getD 2 default) = some 3911.766 ∧
    pyFloat ((pySplitComma exampleLine).getD 4 default) = some 7715.408 ∧
    parse_gngga exampleLine = some exampleFix ∧
    exampleFix.latitude =
      specConvert 3911.766 ((pySplitComma exampleLine).getD 3 default) ∧
    exampleFix.longitude =
      specConvert 7715.408 ((pySplitComma exampleLine).getD 5 default) := by
  have hv : is_valid_gngga_line exampleLine = true := by with_unfolding_all rfl
  have h2 : pyFloat ((pySplitComma exampleLine).getD 2 default) = some 3911.766 := by
    with_unfolding_all rfl
  have h4 : pyFloat ((pySplitComma exampleLine).getD 4 default) = some 7715.408 := by
    with_unfolding_all rfl
  have hp : parse_gngga exampleLine = some exampleFix := by with_unfolding_all rfl
  obtain ⟨ha, hb⟩ := convertC3.1 exampleLine exampleFix 3911.766 7715.408 hv h2 h4 hp
  exact ⟨hv, h2, h4, hp, ha, hb⟩

/-- C4: a line whose raw latitude or raw longitude magnitude parses as
exactly zero is rejected by the validator, whatever the other fields hold
(lines that fail an earlier structural check are rejected as well). -/
theorem validatorC4 (line : String)
    (h : pyFloat ((pySplitComma line).getD 2 default) = some 0 ∨
         pyFloat ((pySplitComma line).getD 4 default) = some 0) :
    is_valid_gngga_line line = false := by
  simp only [is_valid_gngga_line]
  split
  · rfl
  · split
    · rfl
    · split
      · rfl
      · split
        next lat_val lon_val alt_val heq2 heq4 heq9 =>
          rcases h with h | h
          · rw [h] at heq2
            have : lat_val = 0 := by injection heq2 with h'; exact h'.symm
            rw [if_pos (Or.inl this)]
          · rw [h] at heq4
            have : lon_val = 0 := by injection heq4 with h'; exact h'.symm
            rw [if_pos (Or.inr this)]
        next => rfl

/-- C4 witness: a concrete line whose raw latitude parses as zero is
rejected though every other field is valid. -/
theorem validatorC4_witness :
    pyFloat ((pySplitComma zeroLatLine).getD 2 default) = some 0 ∧
    is_valid_gngga_line zeroLatLine = false := by
  have h : pyFloat ((pySplitComma zeroLatLine).getD 2 default) = some 0 := by
    with_unfolding_all rfl
  exact ⟨h, validatorC4 zeroLatLine (Or.inl h)⟩

/-- C5: the validator is a total Boolean function of the input line, and a
parse failure on any of its three numeric plausibility fields (raw
latitude, raw longitude, altitude) yields false rather than an error. -/
theorem validatorC5 :
    (∀ line : String,
      is_valid_gngga_line line = true ∨ is_valid_gngga_line line = false) ∧
    (∀ line : String,
      pyFloat ((pySplitComma line).getD 2 default) = none ∨
      pyFloat ((pySplitComma line).getD 4 default) = none ∨
      pyFloat ((pySplitComma line).getD 9 default) = none →
      is_valid_gngga_line line = false) := by
  constructor
  · intro line
    cases h : is_valid_gngga_line line
    · right; rfl
    · left; rfl
  · intro line h
    simp only [is_valid_gngga_line]
    split
    · rfl
    · split
      · rfl
      · split
        · rfl
        · split
          next lat_val lon_val alt_val heq2 heq4 heq9 =>
            rcases h with h | h | h
            · rw [h] at heq2; simp at heq2
            · rw [h] at heq4; simp at heq4
            · rw [h] at heq9; simp at heq9
          next => rfl

/-- C5 witness: a line whose altitude field is non-numeric text fails the
pyFloat parse and the validator returns false. -/
theorem validatorC5_witness :
    pyFloat ((pySplitComma badAltLine).getD 9 default) = none ∧
    is_valid_gngga_line badAltLine = false := by
  have h : pyFloat ((pySplitComma badAltLine).getD 9 default) = none := by
    with_unfolding_all rfl
  exact ⟨h, validatorC5.2 badAltLine (Or.inr (Or.inr h))⟩

/-- C6: the reader returns exactly the decoded lines that, once stripped of
surrounding whitespace, start with the sentence tag, are longer than 50
characters and consist of 7-bit ASCII characters each printable or
whitespace; everything else is dropped and order is the file order. -/
theorem readerC6 :
    (∀ raw_lines : List String,
      read_latest_gnss_data raw_lines = (raw_lines.map pyStrip).filter lineKeep) ∧
    (∀ l : String,
      lineKeep l = true ↔
        (isHeadOf gnggaTag.data l.data = true ∧ 50 < l.length ∧
          ∀ c ∈ l.data, c.toNat < 128 ∧
            (pyIsPrintableAscii c = true ∨ pyIsSpace c = true))) :=
  ⟨read_eq_filter, lineKeep_iff⟩

/-- C7: the batch loop parses every candidate line independently, keeps the
successes in file order, and its skipped count is the number of candidate
lines minus the number of successes. -/
theorem parseAllC7 (raw_lines : List String) :
    (parseAll raw_lines).1 =
      (read_latest_gnss_data raw_lines).filterMap parse_gngga ∧
    (parseAll raw_lines).2 =
      (read_latest_gnss_data raw_lines).length - ((parseAll raw_lines).1).length := by
  unfold parseAll
  rw [parseAllLoop_eq]
  simp

/-- C8: the live window append keeps at most 1000 points; below the cap it
appends, and at the cap it drops exactly the oldest point before keeping
the new one. -/
theorem liveC8 (w : List PlanarOffset) (p : PlanarOffset) (h : w.length ≤ 1000) :
    (livePush w p).length ≤ 1000 ∧
    (w.length < 1000 → livePush w p = w ++ [p]) ∧
    (w.length = 1000 → livePush w p = w.drop 1 ++ [p]) := by
  unfold livePush
  refine ⟨?_, ?_, ?_⟩
  · split
    · simp; omega
    · next h2 => simp at h2 ⊢; omega
  · intro hlt
    rw [if_neg]
    simp
    omega
  · intro heq
    rw [if_pos]
    · rw [List.drop_append_of_le_length]
      · simp [heq]
      · simp [heq]
    · simp [heq]

/-- C8 witness: pushing onto the empty window stays within the cap and is
a plain append. -/
theorem liveC8_witness :
    (([] : List PlanarOffset)).length ≤ 1000 ∧
    (livePush [] originOffset).length ≤ 1000 ∧
    livePush [] originOffset = [originOffset] := by
  have h : (([] : List PlanarOffset)).length ≤ 1000 := by decide
  obtain ⟨h1, h2, _⟩ := liveC8 [] originOffset h
  exact ⟨h, h1, by simpa using h2 (by decide)⟩

/-- C9 counterexample: on a missing file the reader catches the error and
returns an empty sequence (printing a message); the returned line list is
identical to the one for an empty readable file, so the path-not-found
case is not surfaced to the caller as a distinct failure. -/
theorem readerC9counter :
    read_latest_gnss_data_file FileReadOutcome.notFound =
      ([], some ConsoleMsg.fileNotFound) ∧
    (read_latest_gnss_data_file FileReadOutcome.notFound).1 =
      (read_latest_gnss_data_file (FileReadOutcome.ok [])).1 :=
  ⟨rfl, rfl⟩

/-- C9 (amended): the reader catches a missing file, printing a
file-not-found message, and catches any other failure, printing a generic
read-error message; in both cases it returns the empty sequence, so the
two failure kinds are distinguished only by their console messages, never
by a raised error or the returned value. -/
theorem readerC9amended :
    read_latest_gnss_data_file FileReadOutcome.notFound =
      ([], some ConsoleMsg.fileNotFound) ∧
    (∀ m, read_latest_gnss_data_file (FileReadOutcome.ioError m) =
      ([], some ConsoleMsg.readError)) ∧
    ConsoleMsg.fileNotFound ≠ ConsoleMsg.readError ∧
    (∀ raw_lines, read_latest_gnss_data_file (FileReadOutcome.ok raw_lines) =
      (read_latest_gnss_data raw_lines, none)) :=
  ⟨rfl, fun _ => rfl, by simp, fun _ => rfl⟩

/-- C10: a live-mode point is appended only when its displacements pass the
plausibility gate, so a window whose points all satisfy the east, north
and vertical bounds keeps satisfying them after a step. -/
theorem liveC10 (w : List PlanarOffset) (p q : PlanarOffset)
    (hw : ∀ r ∈ w, |r.east| ≤ 1000 ∧ |r.north| ≤ 1000 ∧ |r.up| ≤ 100)
    (hq : q ∈ liveStep w p) :
    |q.east| ≤ 1000 ∧ |q.north| ≤ 1000 ∧ |q.up| ≤ 100 := by
  unfold liveStep at hq
  split at hq
  · exact hw q hq
  · next hok =>
    push_neg at hok
    have hsub : q ∈ w ++ [p] := by
      unfold livePush at hq
      split at hq
      · exact List.drop_subset _ _ hq
      · exact hq
    rcases List.mem_append.mp hsub with hqw | hqp
    · exact hw q hqw
    · simp at hqp
      subst hqp
      exact ⟨hok.1, hok.2.1, hok.2.2⟩

/-- C10 witness: stepping the empty window with the origin point stores it
and the stored point satisfies the bounds. -/
theorem liveC10_witness :
    originOffset ∈ liveStep [] originOffset ∧
    |originOffset.east| ≤ 1000 ∧ |originOffset.north| ≤ 1000 ∧
    |originOffset.up| ≤ 100 := by
  have hw : ∀ r ∈ ([] : List PlanarOffset),
      |r.east| ≤ 1000 ∧ |r.north| ≤ 1000 ∧ |r.up| ≤ 100 := by simp
  have hstep : liveStep [] originOffset = [originOffset] := by with_unfolding_all rfl
  have hq : originOffset ∈ liveStep [] originOffset := by
    rw [hstep]; exact List.mem_singleton.mpr rfl
  exact ⟨hq, liveC10 [] originOffset originOffset hw hq⟩

end UbxView
